import Mathlib

/-!
Verification of the weight-conversion core of the Fitbit2Garmin repository.

The development shallowly embeds the two conversion pipelines of the
repository:

* `backend/converter.py` — the web-service converter (`FitbitConverter`):
  pounds→kilograms conversion, Google-Takeout validation, weight-scale
  message construction with its order-critical field layout, timestamp
  handling via `logId`, stable sorting by timestamp, and output-file naming
  from the input file name's embedded date (ISO week number).
* `tested/convert_json_to_fit.py` — the offline script: date/time-string
  parsing (`%m/%d/%y` / `%m/%d/%Y` patterns, UTC, milliseconds since the
  Unix epoch) with per-record skipping on parse failure.

Python floats are modelled as exact rationals (`ℚ`); `round(x, 1)` is
modelled as round-half-to-even at one decimal place, which is Python's
rounding mode on the exact value of its argument.  Python exceptions are
modelled with `Except`: a raised-and-uncaught exception is `.error`, and
where the source catches an exception and substitutes a value, the model
returns that value.  JSON objects are association lists of string keys and
JSON values; JSON numbers are exact rationals.
-/

/- Core `Rat` arithmetic is `@[irreducible]` in this toolchain, which only
affects elaborator-level unfolding; re-marking it `semireducible` lets
`decide`/`rfl` evaluate concrete rational computations. -/
attribute [local semireducible] Rat.mul Rat.inv Rat.add Rat.sub Rat.ofScientific

/-! ## Rounding (Python `round(x, ndigits)`) -/

/-- Round a rational to the nearest integer, ties to even — the behaviour of
Python's builtin `round` on the exact value of its argument. -/
def roundHalfEven (q : ℚ) : ℤ :=
  if q - ⌊q⌋ < 1/2 then ⌊q⌋
  else if 1/2 < q - ⌊q⌋ then ⌊q⌋ + 1
  else if ⌊q⌋ % 2 = 0 then ⌊q⌋ else ⌊q⌋ + 1

/-- Python's `round(x, 1)`: round to one decimal place, ties to even. -/
def round1 (q : ℚ) : ℚ := (roundHalfEven (10 * q) : ℚ) / 10

theorem abs_roundHalfEven_sub (q : ℚ) : |(roundHalfEven q : ℚ) - q| ≤ 1/2 := by
  have h0 : (⌊q⌋ : ℚ) ≤ q := Int.floor_le q
  have h1 : q < ⌊q⌋ + 1 := Int.lt_floor_add_one q
  unfold roundHalfEven
  by_cases hc1 : q - ⌊q⌋ < 1/2
  · simp only [hc1, if_true]
    rw [abs_le]
    constructor <;> linarith
  · simp only [hc1, if_false]
    by_cases hc2 : 1/2 < q - ⌊q⌋
    · simp only [hc2, if_true]
      rw [abs_le]
      constructor <;> push_cast <;> linarith
    · simp only [hc2, if_false]
      by_cases hc3 : ⌊q⌋ % 2 = 0 <;>
        simp only [hc3, if_true, if_false] <;>
        · rw [abs_le]
          constructor <;> push_cast <;> linarith

theorem abs_round1_sub (q : ℚ) : |round1 q - q| ≤ 1/20 := by
  have h := abs_roundHalfEven_sub (10 * q)
  have heq : round1 q - q = ((roundHalfEven (10 * q) : ℚ) - 10 * q) / 10 := by
    unfold round1; ring
  rw [heq, abs_div]
  have h10 : |(10 : ℚ)| = 10 := by norm_num
  rw [h10]
  linarith

/-! ## Unit conversion (`convert_pounds_to_kg`, both source files) -/

/-- Source: `backend/converter.py` lines 21-23 and
`tested/convert_json_to_fit.py` lines 31-33:
`return round(pounds / 2.2046, 1)`. -/
def convert_pounds_to_kg (pounds : ℚ) : ℚ := round1 (pounds / 2.2046)

example : convert_pounds_to_kg 110.23 = 50 := by decide
example : convert_pounds_to_kg 180 = 81.6 := by decide

/-! ## String utilities

Python's `str.split(sep)` and the `.json`-stripping `str.replace`, modelled
structurally on character lists so that they evaluate by `decide`/`rfl`. -/

/-- Python `s.split(sep)` for a one-character separator: splits on every
occurrence, keeping empty pieces (`"a-b-".split('-') == ["a","b",""]`,
`"".split('-') == [""]`). -/
def splitOnChar (sep : Char) : List Char → List (List Char)
  | [] => [[]]
  | a :: rest =>
    match splitOnChar sep rest with
    | [] => if a = sep then [[], []] else [[a]]
    | g :: gs => if a = sep then [] :: g :: gs else (a :: g) :: gs

/-- Python `s.replace(".json", "")`: removes every occurrence of `".json"`. -/
def stripJsonAll : List Char → List Char
  | '.' :: 'j' :: 's' :: 'o' :: 'n' :: rest => stripJsonAll rest
  | c :: rest => c :: stripJsonAll rest
  | [] => []

/-- Split a string on a separator character, returning strings. -/
def pySplit (sep : Char) (s : String) : List String :=
  (splitOnChar sep s.toList).map List.asString

/-- Numeric value of a digit list (most significant first). -/
def natOfDigits (cs : List Char) : ℕ :=
  cs.foldl (fun n c => 10 * n + (c.toNat - 48)) 0

/-- Python `int(s)` restricted to plain digit strings, as produced by the
date-bearing file names the converter expects; other accepted `int` inputs
(signs, surrounding whitespace, underscores) either cannot reach a valid
`datetime` or do not occur in the formats under test. -/
def pyIntDigits? (s : String) : Option ℕ :=
  let cs := s.toList
  if cs ≠ [] ∧ cs.all Char.isDigit then some (natOfDigits cs) else none

/-! ## Gregorian calendar and ISO week numbers

`datetime(y, m, d)`, `datetime.strptime` validation and
`date.isocalendar()[1]`, for the proleptic Gregorian calendar used by
Python's `datetime` (year 1 = ordinal day 1, a Monday). -/

def isLeap (y : ℕ) : Bool :=
  (y % 4 == 0 && y % 100 != 0) || y % 400 == 0

def daysInMonth (y m : ℕ) : ℕ :=
  if m = 2 then (if isLeap y then 29 else 28)
  else if m = 4 ∨ m = 6 ∨ m = 9 ∨ m = 11 then 30
  else 31

/-- Day of the year, 1-based (`datetime.timetuple().tm_yday`). -/
def dayOfYear (y m d : ℕ) : ℕ :=
  (List.range (m - 1)).foldl (fun acc i => acc + daysInMonth y (i + 1)) 0 + d

/-- Proleptic-Gregorian ordinal (`date.toordinal()`): day 1 is 0001-01-01. -/
def ordinalDate (y m d : ℕ) : ℕ :=
  365 * (y - 1) + (y - 1) / 4 - (y - 1) / 100 + (y - 1) / 400 + dayOfYear y m d

/-- ISO weekday (`date.isoweekday()`): Monday = 1 … Sunday = 7. -/
def isoWeekday (y m d : ℕ) : ℕ :=
  (ordinalDate y m d - 1) % 7 + 1

/-- Number of ISO weeks in year `y` (52 or 53). -/
def isoWeeksInYear (y : ℕ) : ℕ :=
  if (y + y / 4 - y / 100 + y / 400) % 7 = 4 ∨
      ((y - 1) + (y - 1) / 4 - (y - 1) / 100 + (y - 1) / 400) % 7 = 3 then 53
  else 52

/-- ISO week number (`date.isocalendar()[1]`). -/
def isoWeek (y m d : ℕ) : ℕ :=
  let w := (dayOfYear y m d + 10 - isoWeekday y m d) / 7
  if w = 0 then isoWeeksInYear (y - 1)
  else if isoWeeksInYear y < w then 1
  else w

example : ordinalDate 1970 1 1 = 719163 := by decide
example : isoWeekday 1970 1 1 = 4 := by decide
example : isoWeek 2024 6 1 = 22 := by decide
example : isoWeek 2025 5 15 = 20 := by decide
example : isoWeek 2021 1 1 = 53 := by decide
example : isoWeek 2024 12 31 = 1 := by decide
example : isoWeek 1 1 1 = 1 := by decide

/-! ## `strptime` field patterns

CPython's `_strptime` matches `%m` with `1[0-2]|0[1-9]|[1-9]`, `%d` with
`3[01]|[12]\d|0[1-9]|[1-9]`, `%H` with `2[0-3]|[0-1]\d|\d`, `%M` with
`[0-5]\d|\d`, `%y` with exactly two digits and `%Y` with exactly four
digits; all are equivalent to a digits-only string of bounded length whose
value lies in the field's range.  `%S` also admits the leap values 60-61,
which `datetime.strptime` then rejects with the same `ValueError` as a
pattern mismatch, so the model folds that rejection into the pattern. -/

/-- A bounded numeric `strptime` field: 1 to `maxLen` digits, value within
`[lo, hi]`. -/
def parseField? (maxLen lo hi : ℕ) (s : String) : Option ℕ :=
  let cs := s.toList
  if cs ≠ [] ∧ cs.length ≤ maxLen ∧ cs.all Char.isDigit then
    let v := natOfDigits cs
    if lo ≤ v ∧ v ≤ hi then some v else none
  else none

/-- Pattern `%y`: exactly two digits; 00-68 map to 2000-2068, 69-99 to 1969-1999. -/
def parseYear2? (s : String) : Option ℕ :=
  let cs := s.toList
  if cs.length = 2 ∧ cs.all Char.isDigit then
    let v := natOfDigits cs
    some (if v ≤ 68 then 2000 + v else 1900 + v)
  else none

/-- Pattern `%Y`: exactly four digits; year 0 is rejected by the `datetime`
constructor (`MINYEAR = 1`). -/
def parseYear4? (s : String) : Option ℕ :=
  let cs := s.toList
  if cs.length = 4 ∧ cs.all Char.isDigit then
    let v := natOfDigits cs
    if 1 ≤ v then some v else none
  else none

/-- Model of `datetime.strptime` on the combined date-time string with
pattern `%m/%d/%y %H:%M:%S` (or
`%Y` for the four-digit-year pattern): returns the validated
`(year, month, day, hour, minute, second)` or `none` for the `ValueError`
the callers catch.  Day-of-month validity (`day ≤ daysInMonth`) is enforced
by the `datetime` constructor. -/
def strptimeParts? (twoDigitYear : Bool) (date_str time_str : String) :
    Option (ℕ × ℕ × ℕ × ℕ × ℕ × ℕ) :=
  match pySplit '/' date_str, pySplit ':' time_str with
  | [ms, ds, ys], [hs, mins, ss] =>
    match parseField? 2 1 12 ms, parseField? 2 1 31 ds,
        (if twoDigitYear then parseYear2? ys else parseYear4? ys),
        parseField? 2 0 23 hs, parseField? 2 0 59 mins, parseField? 2 0 59 ss with
    | some mo, some d, some y, some h, some mi, some s =>
      if d ≤ daysInMonth y mo then some (y, mo, d, h, mi, s) else none
    | _, _, _, _, _, _ => none
  | _, _ => none

example : strptimeParts? true "6/1/24" "08:00:00" = some (2024, 6, 1, 8, 0, 0) := by decide
example : strptimeParts? true "1/1/70" "00:00:00" = some (1970, 1, 1, 0, 0, 0) := by decide
example : strptimeParts? true "13/45/99" "08:00:00" = none := by decide
example : strptimeParts? false "6/1/2024" "23:59:59" = some (2024, 6, 1, 23, 59, 59) := by decide

/-! ## JSON values, records and Python exceptions -/

/- `Except` results are compared in concrete evaluations below. -/
deriving instance DecidableEq for Except

/-- A JSON scalar as it appears in the weight-export records: a number
(exact rational — Python parses JSON numbers to floats, themselves exact
rationals) or a string. -/
inductive JVal where
  | num (q : ℚ)
  | str (s : String)
deriving DecidableEq, Repr

/-- One parsed JSON object (`Dict[str, Any]`), as an association list. -/
abbrev Entry := List (String × JVal)

/-- Python exceptions relevant to the two pipelines.  `invalidFormat` is the
`ValueError("Invalid Google Takeout format...")` raised by
`process_json_data`; the others are the builtin exception classes. -/
inductive PyErr where
  | invalidFormat
  | keyError (k : String)
  | typeError
  | indexError
deriving DecidableEq, Repr

/-- Lookup `entry[k]` followed by use as a number.  A missing key raises
`KeyError`; a string value makes the subsequent arithmetic (`/` for the
weight, `round` for the body fat) raise `TypeError`.  (For `logId`, which
Python only stores and compares, a non-numeric value would instead crash
later inside the `fit_tool` encoder; the model surfaces that failure here.) -/
def getNum (e : Entry) (k : String) : Except PyErr ℚ :=
  match e.lookup k with
  | none => .error (.keyError k)
  | some (.num q) => .ok q
  | some (.str _) => .error .typeError

/-- Lookup `entry[k]` used in an f-string: a missing key raises `KeyError`; any present value is
formatted into the string handed to `strptime`.  (The exact decimal `repr`
Python would print for a float does not matter: a formatted number never
matches either date pattern.) -/
def getStrLike (e : Entry) (k : String) : Except PyErr String :=
  match e.lookup k with
  | none => .error (.keyError k)
  | some (.str s) => .ok s
  | some (.num q) => .ok (toString q)

/-- Source: `body_fat = entry.get('fat', 0.0); if body_fat == 0.0: body_fat = None
else: body_fat = round(body_fat, 1)` (converter.py lines 106-110,
convert_json_to_fit.py lines 104-108).  A string value compares unequal to
`0.0` and then makes `round` raise `TypeError`. -/
def getFat (e : Entry) : Except PyErr (Option ℚ) :=
  match (e.lookup "fat").getD (.num 0) with
  | .num q => if q = 0 then .ok none else .ok (some (round1 q))
  | .str _ => .error .typeError

/-! ## Message model -/

/-- The WeightScale fields the pipelines assign. -/
inductive WSFieldName where
  | timestamp
  | weight
  | bone_mass
  | muscle_mass
  | percent_fat
  | percent_hydration
deriving DecidableEq, Repr

/-- A `WeightScaleMessage` as both pipelines populate it. -/
structure WeightScaleMsg where
  timestamp : ℚ
  weight : ℚ
  bone_mass : ℚ
  muscle_mass : ℚ
  percent_fat : Option ℚ
  percent_hydration : ℚ
deriving DecidableEq, Repr

/-- Serialization order of the message's fields: the source assigns
`timestamp`, `weight`, `bone_mass`, `muscle_mass`, then `percent_fat` only
when body fat is present, then `percent_hydration` (converter.py lines
113-123, convert_json_to_fit.py lines 111-121), and the encoder emits
fields in assignment order. -/
def WeightScaleMsg.fieldOrder (m : WeightScaleMsg) : List WSFieldName :=
  [.timestamp, .weight, .bone_mass, .muscle_mass]
    ++ (match m.percent_fat with
        | some _ => [.percent_fat]
        | none => [])
    ++ [.percent_hydration]

/-- The `FileIdMessage` (converter.py lines 82-92). -/
structure FileIdMsg where
  type : ℕ
  manufacturer : ℕ
  product : ℕ
  product_name : String
  serial_number : ℕ
  number : ℕ
  time_created : ℚ
deriving DecidableEq, Repr

/-! ## `FitbitConverter` (backend/converter.py) -/

/-- The converter's only instance state is `conversion_count` (line 19). -/
structure FitbitConverter where
  conversion_count : ℕ
deriving DecidableEq, Repr

/- `convert_pounds_to_kg` above is also the method body of
`FitbitConverter.convert_pounds_to_kg`. -/

/-- Method `FitbitConverter.extract_week_year_from_filename` (lines 25-44): strip
`.json`, split on `-`, require at least four parts with the first equal to
`weight`, parse year/month/day as integers, build a `datetime` (which
validates the date) and return `f"{isoweek}-{year}"`; any `ValueError`
(unparsable integer or invalid date) yields `None`. -/
def extract_week_year_from_filename (filename : String) : Option String :=
  let base := (stripJsonAll filename.toList).asString
  match pySplit '-' base with
  | p0 :: p1 :: p2 :: p3 :: _ =>
    if p0 = "weight" then
      match pyIntDigits? p1, pyIntDigits? p2, pyIntDigits? p3 with
      | some y, some mo, some d =>
        if 1 ≤ mo ∧ mo ≤ 12 ∧ 1 ≤ d ∧ d ≤ daysInMonth y mo ∧ 1 ≤ y ∧ y ≤ 9999 then
          some (Nat.repr (isoWeek y mo d) ++ "-" ++ Nat.repr y)
        else none
      | _, _, _ => none
    else none
  | _ => none

example : extract_week_year_from_filename "weight-2024-06-01.json" = some "22-2024" := by decide
example : extract_week_year_from_filename "weight-2025-05-15.json" = some "20-2025" := by decide
example : extract_week_year_from_filename "takeout.json" = none := by decide
example : extract_week_year_from_filename "weight-2024-02-30.json" = none := by decide

/-- Method `FitbitConverter.validate_google_takeout_format` (lines 46-55): the
input (typed `List[Dict[str, Any]]`) is valid when it is non-empty and its
first entry has all of the keys `logId`, `weight`, `date`, `time`. -/
def validate_google_takeout_format (data : List Entry) : Bool :=
  match data with
  | [] => false
  | first :: _ =>
    ["logId", "weight", "date", "time"].all (fun f => (first.lookup f).isSome)

/-- Method `FitbitConverter.get_output_filename` (lines 144-151). -/
def get_output_filename (input_filename : String) : String :=
  match extract_week_year_from_filename input_filename with
  | some week_year => "Weight " ++ week_year ++ " Fitbit.fit"
  | none => "Weight Converted Fitbit.fit"

/-- The `week_year` computation of `process_json_data` (lines 65-76): from
the file name, else from the first entry's `date` via
`datetime.strptime(..., "%m/%d/%y")` (two-digit-year pattern only), else the
literal `"1-2025"`.  Only `ValueError` is caught, so a non-string `date`
value (a `TypeError` inside `strptime`) propagates. -/
def process_week_year (json_data : List Entry) (filename : String) :
    Except PyErr String :=
  match extract_week_year_from_filename filename with
  | some week_year => .ok week_year
  | none =>
    match json_data.head? with
    | none => .error .indexError
    | some first =>
      match first.lookup "date" with
      | none => .error (.keyError "date")
      | some (.num _) => .error .typeError
      | some (.str s) =>
        match strptimeParts? true s "00:00:00" with
        | some (y, mo, d, _, _, _) =>
          .ok (Nat.repr (isoWeek y mo d) ++ "-" ++ Nat.repr y)
        | none => .ok "1-2025"

/-- One weight entry of the `process_json_data` loop (lines 98-125):
`timestamp` is the entry's `logId` used directly as an epoch timestamp,
`weight` is the converted weight, bone mass / muscle mass / hydration are
fixed at `0.0`, and body fat is normalized by `getFat`. -/
def entryToMsg (e : Entry) : Except PyErr WeightScaleMsg :=
  match getNum e "logId" with
  | .error err => .error err
  | .ok ts =>
    match getNum e "weight" with
    | .error err => .error err
    | .ok w =>
      match getFat e with
      | .error err => .error err
      | .ok fat =>
        .ok { timestamp := ts, weight := convert_pounds_to_kg w,
              bone_mass := 0, muscle_mass := 0,
              percent_fat := fat, percent_hydration := 0 }

/-- The entry loop itself: left-to-right, first raised exception aborts. -/
def mapEntries : List Entry → Except PyErr (List WeightScaleMsg)
  | [] => .ok []
  | e :: rest =>
    match entryToMsg e with
    | .error err => .error err
    | .ok m =>
      match mapEntries rest with
      | .error err => .error err
      | .ok ms => .ok (m :: ms)

/-! ## Stable sort by timestamp

`weight_entries.sort(key=lambda x: x.timestamp)` (converter.py line 128,
convert_json_to_fit.py line 126).  Python's list sort is exactly the stable
sort by the key, and a stable sort's output is uniquely determined by the
key ordering, so any stable sorting algorithm is an extensionally faithful
model; insertion sort is used because it is structurally recursive. -/

/-- Insert `m` before the first element whose timestamp is not smaller:
elements already in the list that tie with `m` on the key stay in front of
nothing — `m` goes before every element with `m.timestamp ≤` its timestamp,
keeping earlier input elements with equal keys ahead of later ones. -/
def insertByTimestamp (m : WeightScaleMsg) :
    List WeightScaleMsg → List WeightScaleMsg
  | [] => [m]
  | a :: rest =>
    if m.timestamp ≤ a.timestamp then m :: a :: rest
    else a :: insertByTimestamp m rest

/-- Stable sort of the message list, ascending by `timestamp`. -/
def sortByTimestamp : List WeightScaleMsg → List WeightScaleMsg
  | [] => []
  | m :: rest => insertByTimestamp m (sortByTimestamp rest)

/-! ## `FitbitConverter.process_json_data` (lines 57-142) -/

/-- What `process_json_data` computes, short of the raw bytes: the encoder
(`FitFileBuilder`, an external library) is a deterministic function of the
file-id message and the ordered weight messages, so the byte output is
determined by this structure.  `entry_count` is the returned
`len(weight_entries)`. -/
structure ProcessOutput where
  week_year : String
  file_id : FileIdMsg
  entries : List WeightScaleMsg
  entry_count : ℕ
deriving DecidableEq, Repr

/-- Method `FitbitConverter.process_json_data(self, json_data, filename)`:
validate, derive `week_year`, build the file-id message (with
`time_created` set from the FIRST entry's `logId`, line 92), convert every
entry, sort by timestamp, and count one more conversion.  The returned pair
is `(result-or-exception, updated converter state)`; the state is unchanged
when an exception propagates. -/
def FitbitConverter.process_json_data (c : FitbitConverter)
    (json_data : List Entry) (filename : String) :
    Except PyErr ProcessOutput × FitbitConverter :=
  if validate_google_takeout_format json_data then
    match process_week_year json_data filename with
    | .error err => (.error err, c)
    | .ok week_year =>
      match json_data.head? with
      | none => (.error .indexError, c)
      | some first =>
        match getNum first "logId" with
        | .error err => (.error err, c)
        | .ok time_created =>
          match mapEntries json_data with
          | .error err => (.error err, c)
          | .ok msgs =>
            let sorted := sortByTimestamp msgs
            (.ok { week_year := week_year,
                   file_id := { type := 4, manufacturer := 255, product := 1,
                                product_name := "Health Sync",
                                serial_number := 1701, number := 0,
                                time_created := time_created },
                   entries := sorted, entry_count := sorted.length },
             { conversion_count := c.conversion_count + 1 })
  else (.error .invalidFormat, c)

/-- Function `convert_fitbit_to_garmin` (lines 154-183): process each
`(filename, json_data)` pair with one shared converter, pairing each result
with `get_output_filename(filename)`; the `except` clause re-raises, so the
first exception aborts the whole batch. -/
def convertFiles (c : FitbitConverter) :
    List (String × List Entry) → Except PyErr (List (String × ProcessOutput))
  | [] => .ok []
  | (filename, json_data) :: rest =>
    match c.process_json_data json_data filename with
    | (.error err, _) => .error err
    | (.ok out, c') =>
      match convertFiles c' rest with
      | .error err => .error err
      | .ok results => .ok ((get_output_filename filename, out) :: results)

def convert_fitbit_to_garmin (json_files : List (String × List Entry)) :
    Except PyErr (List (String × ProcessOutput)) :=
  convertFiles { conversion_count := 0 } json_files

/-! ## The date/time-string path (tested/convert_json_to_fit.py) -/

/-- Function `convert_date_to_unix_timestamp(date_str, time_str)` (lines 10-29):
`date_str.split('/')[2]` raises an UNCAUGHT `IndexError` when the date has
fewer than three `/`-separated parts (the `except` clause catches only
`ValueError`); otherwise the two- or four-digit-year pattern is chosen by
that third part's length, the combined string is parsed as a UTC datetime,
and the result is milliseconds since the Unix epoch — or `None` (`.ok none`)
when `strptime` raises the `ValueError` that IS caught. -/
def convert_date_to_unix_timestamp (date_str time_str : String) :
    Except PyErr (Option ℤ) :=
  match pySplit '/' date_str with
  | _ :: _ :: third :: _ =>
    match strptimeParts? (third.length = 2) date_str time_str with
    | none => .ok none
    | some (y, mo, d, h, mi, s) =>
      .ok (some (1000 * (86400 * ((ordinalDate y mo d : ℤ) - 719163)
        + ((3600 * h + 60 * mi + s : ℕ) : ℤ))))
  | _ => .error .indexError

example : convert_date_to_unix_timestamp "6/1/24" "08:00:00"
    = .ok (some 1717228800000) := by decide
example : convert_date_to_unix_timestamp "1/1/70" "00:00:00"
    = .ok (some 0) := by decide
example : convert_date_to_unix_timestamp "13/45/99" "08:00:00" = .ok none := by decide
example : convert_date_to_unix_timestamp "2024-06-01" "08:00:00"
    = .error .indexError := by decide
example : convert_date_to_unix_timestamp "12/31/69" "23:59:59"
    = .ok (some (-1000)) := by decide

/-- The weight-entry loop of `create_fit_file_from_json` (lines 93-123):
convert each entry's date/time, `continue` when the result is falsy
(`None` OR `0` — `if not unix_timestamp`), convert the weight, normalize
body fat, and append the message. -/
def create_fit_file_weight_entries :
    List Entry → Except PyErr (List WeightScaleMsg)
  | [] => .ok []
  | e :: rest =>
    match getStrLike e "date" with
    | .error err => .error err
    | .ok ds =>
      match getStrLike e "time" with
      | .error err => .error err
      | .ok ts =>
        match convert_date_to_unix_timestamp ds ts with
        | .error err => .error err
        | .ok none => create_fit_file_weight_entries rest
        | .ok (some t) =>
          if t = 0 then create_fit_file_weight_entries rest
          else
            match getNum e "weight" with
            | .error err => .error err
            | .ok w =>
              match getFat e with
              | .error err => .error err
              | .ok fat =>
                match create_fit_file_weight_entries rest with
                | .error err => .error err
                | .ok ms =>
                  .ok ({ timestamp := (t : ℚ), weight := convert_pounds_to_kg w,
                         bone_mass := 0, muscle_mass := 0,
                         percent_fat := fat, percent_hydration := 0 } :: ms)

/-! ## Concrete sample data for the evaluations below -/

/-- A well-formed Takeout weight entry: `logId`, `weight` (pounds), and the
string `date`/`time` fields. -/
def sampleEntry (logId w : ℚ) : Entry :=
  [("logId", .num logId), ("weight", .num w),
   ("date", .str "6/1/24"), ("time", .str "08:00:00")]

example :
    (FitbitConverter.process_json_data { conversion_count := 0 }
        [sampleEntry 2 110.23, sampleEntry 1 220.46]
        "weight-2024-06-01.json").1
      = .ok { week_year := "22-2024",
              file_id := { type := 4, manufacturer := 255, product := 1,
                           product_name := "Health Sync", serial_number := 1701,
                           number := 0, time_created := 2 },
              entries := [{ timestamp := 1, weight := 100, bone_mass := 0,
                            muscle_mass := 0, percent_fat := none,
                            percent_hydration := 0 },
                          { timestamp := 2, weight := 50, bone_mass := 0,
                            muscle_mass := 0, percent_fat := none,
                            percent_hydration := 0 }],
              entry_count := 2 } := by decide

/-! ## Properties of the stable sort -/

theorem mem_insertByTimestamp (m b : WeightScaleMsg) :
    ∀ (l : List WeightScaleMsg), b ∈ insertByTimestamp m l → b = m ∨ b ∈ l
  | [] => by simp [insertByTimestamp]
  | a :: rest => by
    simp only [insertByTimestamp]
    by_cases hc : m.timestamp ≤ a.timestamp
    · rw [if_pos hc]
      intro h
      rcases List.mem_cons.mp h with h | h
      · exact Or.inl h
      · exact Or.inr h
    · rw [if_neg hc]
      intro h
      rcases List.mem_cons.mp h with h | h
      · exact Or.inr (h ▸ List.mem_cons_self a rest)
      · rcases mem_insertByTimestamp m b rest h with h | h
        · exact Or.inl h
        · exact Or.inr (List.mem_cons_of_mem a h)

theorem pairwise_insertByTimestamp (m : WeightScaleMsg) :
    ∀ (l : List WeightScaleMsg),
      l.Pairwise (fun a b => a.timestamp ≤ b.timestamp) →
      (insertByTimestamp m l).Pairwise (fun a b => a.timestamp ≤ b.timestamp)
  | [], _ => by simp [insertByTimestamp]
  | a :: rest, h => by
    rw [List.pairwise_cons] at h
    obtain ⟨ha, hrest⟩ := h
    simp only [insertByTimestamp]
    by_cases hc : m.timestamp ≤ a.timestamp
    · rw [if_pos hc, List.pairwise_cons]
      refine ⟨fun b hb => ?_, List.pairwise_cons.mpr ⟨ha, hrest⟩⟩
      rcases List.mem_cons.mp hb with rfl | hb
      · exact hc
      · exact le_trans hc (ha b hb)
    · rw [if_neg hc, List.pairwise_cons]
      push_neg at hc
      refine ⟨fun b hb => ?_, pairwise_insertByTimestamp m rest hrest⟩
      rcases mem_insertByTimestamp m b rest hb with rfl | hb
      · exact le_of_lt hc
      · exact ha b hb

theorem sortByTimestamp_pairwise :
    ∀ (l : List WeightScaleMsg),
      (sortByTimestamp l).Pairwise (fun a b => a.timestamp ≤ b.timestamp)
  | [] => by simp [sortByTimestamp]
  | m :: rest =>
    pairwise_insertByTimestamp m _ (sortByTimestamp_pairwise rest)

theorem insertByTimestamp_perm (m : WeightScaleMsg) :
    ∀ (l : List WeightScaleMsg), (insertByTimestamp m l).Perm (m :: l)
  | [] => List.Perm.refl _
  | a :: rest => by
    simp only [insertByTimestamp]
    by_cases hc : m.timestamp ≤ a.timestamp
    · rw [if_pos hc]
    · rw [if_neg hc]
      exact ((insertByTimestamp_perm m rest).cons a).trans (List.Perm.swap m a rest)

theorem sortByTimestamp_perm : ∀ (l : List WeightScaleMsg), (sortByTimestamp l).Perm l
  | [] => List.Perm.refl _
  | m :: rest =>
    (insertByTimestamp_perm m (sortByTimestamp rest)).trans
      ((sortByTimestamp_perm rest).cons m)

/-- Inserting never reorders equal-timestamp elements: the elements passed
over are exactly those with a strictly smaller timestamp. -/
theorem filter_insertByTimestamp (t : ℚ) (m : WeightScaleMsg) :
    ∀ (l : List WeightScaleMsg),
      (insertByTimestamp m l).filter (fun x => decide (x.timestamp = t))
        = ((m :: l).filter (fun x => decide (x.timestamp = t)))
  | [] => rfl
  | a :: rest => by
    simp only [insertByTimestamp]
    by_cases hc : m.timestamp ≤ a.timestamp
    · rw [if_pos hc]
    · rw [if_neg hc]
      by_cases ha : a.timestamp = t <;> by_cases hm : m.timestamp = t
      · exact absurd (le_of_eq (hm.trans ha.symm)) hc
      · simp [List.filter_cons, ha, hm, filter_insertByTimestamp t m rest]
      · simp [List.filter_cons, ha, hm, filter_insertByTimestamp t m rest]
      · simp [List.filter_cons, ha, hm, filter_insertByTimestamp t m rest]

/-- Stability: sorting preserves the relative order of equal-timestamp
elements — the equal-timestamp subsequence is untouched. -/
theorem filter_sortByTimestamp (t : ℚ) :
    ∀ (l : List WeightScaleMsg),
      (sortByTimestamp l).filter (fun x => decide (x.timestamp = t))
        = l.filter (fun x => decide (x.timestamp = t))
  | [] => rfl
  | m :: rest => by
    simp only [sortByTimestamp]
    rw [filter_insertByTimestamp]
    simp only [List.filter_cons]
    rw [filter_sortByTimestamp t rest]

/-! ## Inversion of a successful `process_json_data` run -/

theorem getNum_ok {e : Entry} {k : String} {q : ℚ} (h : getNum e k = .ok q) :
    e.lookup k = some (.num q) := by
  unfold getNum at h
  cases hl : e.lookup k with
  | none => rw [hl] at h; exact Except.noConfusion h
  | some v =>
    cases v with
    | num q' =>
      rw [hl] at h
      rw [Except.ok.inj h]
    | str s => rw [hl] at h; exact Except.noConfusion h

theorem process_json_data_ok {c : FitbitConverter} {data : List Entry}
    {fn : String} {out : ProcessOutput}
    (h : (FitbitConverter.process_json_data c data fn).1 = .ok out) :
    ∃ first rest q msgs,
      data = first :: rest ∧
      first.lookup "logId" = some (.num q) ∧
      mapEntries data = .ok msgs ∧
      out.file_id.time_created = q ∧
      out.entries = sortByTimestamp msgs := by
  cases data with
  | nil =>
    simp [FitbitConverter.process_json_data, validate_google_takeout_format] at h
  | cons first rest =>
    unfold FitbitConverter.process_json_data at h
    by_cases hv : validate_google_takeout_format (first :: rest)
    · rw [if_pos hv] at h
      cases hw : process_week_year (first :: rest) fn with
      | error e => rw [hw] at h; exact Except.noConfusion h
      | ok wy =>
        rw [hw] at h
        simp only [List.head?_cons] at h
        cases hg : getNum first "logId" with
        | error e => rw [hg] at h; exact Except.noConfusion h
        | ok tc =>
          rw [hg] at h
          cases hm : mapEntries (first :: rest) with
          | error e => rw [hm] at h; exact Except.noConfusion h
          | ok msgs =>
            rw [hm] at h
            obtain rfl := (Except.ok.inj h).symm
            exact ⟨first, rest, tc, msgs, rfl, getNum_ok hg, rfl, rfl, rfl⟩
    · rw [if_neg hv] at h
      exact Except.noConfusion h

/-! ## Claim theorems -/

/-- C8: for every input `p`, the pounds-to-kilograms conversion equals `p`
divided by 2.2046 rounded to one decimal place; it is a total function of
`p` (deterministic, no failure mode), and it stays within 0.05 kg of the
unrounded quotient. -/
theorem c8_pounds_to_kg (p : ℚ) :
    convert_pounds_to_kg p = round1 (p / 2.2046) ∧
    |convert_pounds_to_kg p - p / 2.2046| ≤ 1/20 :=
  ⟨rfl, abs_round1_sub (p / 2.2046)⟩

/-- C3: the validator accepts a parsed batch exactly when it is non-empty
and its first entry has all four keys `logId`, `weight`, `date`, `time`;
whenever validation fails, `process_json_data` raises the invalid-format
error and produces no output. -/
theorem c3_validator_contract (data : List Entry) (fn : String)
    (c : FitbitConverter) :
    (validate_google_takeout_format data = true ↔
      ∃ first rest, data = first :: rest ∧
        ∀ k ∈ ["logId", "weight", "date", "time"], (first.lookup k).isSome) ∧
    (validate_google_takeout_format data = false →
      (FitbitConverter.process_json_data c data fn).1
        = .error .invalidFormat) := by
  constructor
  · cases data with
    | nil =>
      simp [validate_google_takeout_format]
    | cons first rest =>
      simp only [validate_google_takeout_format, List.all_eq_true]
      constructor
      · intro h
        exact ⟨first, rest, rfl, fun k hk => h k hk⟩
      · rintro ⟨first', rest', heq, h⟩
        injection heq with h1 h2
        subst h1
        exact fun k hk => h k hk
  · intro hval
    unfold FitbitConverter.process_json_data
    rw [hval]
    rfl

/-- C3 witness: the malformed batch `[{"foo": 1}]` fails validation and the
conversion raises the invalid-format error with no bytes produced. -/
theorem c3_witness :
    validate_google_takeout_format [[("foo", JVal.num 1)]] = false ∧
    (FitbitConverter.process_json_data { conversion_count := 0 }
        [[("foo", JVal.num 1)]] "takeout.json").1
      = .error .invalidFormat :=
  ⟨by decide, (c3_validator_contract [[("foo", JVal.num 1)]] "takeout.json"
      { conversion_count := 0 }).2 (by decide)⟩

/-- C1: every weight-scale message produced by either pipeline lays out its
fields in exactly the order timestamp, weight, bone_mass, muscle_mass, then
percent_fat only when body fat is present, then percent_hydration last;
percent_fat, when present, sits between muscle_mass and percent_hydration
and nowhere else. -/
theorem c1_field_order :
    (∀ (c : FitbitConverter) (data : List Entry) (fn : String)
        (out : ProcessOutput),
      (FitbitConverter.process_json_data c data fn).1 = .ok out →
      ∀ m ∈ out.entries,
        (m.percent_fat = none → m.fieldOrder
          = [.timestamp, .weight, .bone_mass, .muscle_mass,
             .percent_hydration]) ∧
        (∀ f, m.percent_fat = some f → m.fieldOrder
          = [.timestamp, .weight, .bone_mass, .muscle_mass, .percent_fat,
             .percent_hydration])) ∧
    (∀ (data : List Entry) (l : List WeightScaleMsg),
      create_fit_file_weight_entries data = .ok l →
      ∀ m ∈ l,
        (m.percent_fat = none → m.fieldOrder
          = [.timestamp, .weight, .bone_mass, .muscle_mass,
             .percent_hydration]) ∧
        (∀ f, m.percent_fat = some f → m.fieldOrder
          = [.timestamp, .weight, .bone_mass, .muscle_mass, .percent_fat,
             .percent_hydration])) := by
  have key : ∀ m : WeightScaleMsg,
      (m.percent_fat = none → m.fieldOrder
        = [.timestamp, .weight, .bone_mass, .muscle_mass,
           .percent_hydration]) ∧
      (∀ f, m.percent_fat = some f → m.fieldOrder
        = [.timestamp, .weight, .bone_mass, .muscle_mass, .percent_fat,
           .percent_hydration]) := by
    intro m
    constructor
    · intro h
      simp [WeightScaleMsg.fieldOrder, h]
    · intro f h
      simp [WeightScaleMsg.fieldOrder, h]
  exact ⟨fun _ _ _ _ _ m _ => key m, fun _ _ _ m _ => key m⟩

/-- Data, expected output and message for the C1 evaluation. -/
def c1Msg : WeightScaleMsg :=
  { timestamp := 1, weight := 50, bone_mass := 0, muscle_mass := 0,
    percent_fat := none, percent_hydration := 0 }

def c1Out : ProcessOutput :=
  { week_year := "22-2024",
    file_id := { type := 4, manufacturer := 255, product := 1,
                 product_name := "Health Sync", serial_number := 1701,
                 number := 0, time_created := 1 },
    entries := [c1Msg], entry_count := 1 }

/-- C1 witness: a concrete conversion whose single message has no body fat
and serializes the five mandatory fields in order. -/
theorem c1_witness :
    (FitbitConverter.process_json_data { conversion_count := 0 }
        [sampleEntry 1 110.23] "weight-2024-06-01.json").1 = .ok c1Out ∧
    c1Msg.fieldOrder
      = [.timestamp, .weight, .bone_mass, .muscle_mass, .percent_hydration] :=
  ⟨by decide,
    (c1_field_order.1 { conversion_count := 0 } [sampleEntry 1 110.23]
        "weight-2024-06-01.json" c1Out (by decide) c1Msg (by decide)).1
      (by decide)⟩

/-- C2: in every successfully converted batch, the weight records of the
output are sorted ascending by timestamp, and the subsequence of records
sharing any fixed timestamp is exactly the corresponding subsequence of the
input-order message list — equal-timestamp records keep their input order
(the sort is stable). -/
theorem c2_sorted_and_stable (c : FitbitConverter) (data : List Entry)
    (fn : String) (out : ProcessOutput)
    (h : (FitbitConverter.process_json_data c data fn).1 = .ok out) :
    out.entries.Pairwise (fun a b => a.timestamp ≤ b.timestamp) ∧
    ∀ msgs, mapEntries data = .ok msgs →
      ∀ t : ℚ, out.entries.filter (fun m => decide (m.timestamp = t))
        = msgs.filter (fun m => decide (m.timestamp = t)) := by
  obtain ⟨first, rest, q, msgs₀, _, _, hmap, _, hent⟩ := process_json_data_ok h
  constructor
  · rw [hent]
    exact sortByTimestamp_pairwise msgs₀
  · intro msgs hm t
    obtain rfl : msgs₀ = msgs := Except.ok.inj (hmap.symm.trans hm)
    rw [hent]
    exact filter_sortByTimestamp t msgs₀

/-- Data for the C2 evaluation: timestamps 2, 1, 1 with three distinct
weights (110.23 lb = 50 kg, 220.46 lb = 100 kg, 330.69 lb = 150 kg). -/
def c2Data : List Entry :=
  [sampleEntry 2 110.23, sampleEntry 1 220.46, sampleEntry 1 330.69]

def c2Msgs : List WeightScaleMsg :=
  [{ timestamp := 2, weight := 50, bone_mass := 0, muscle_mass := 0,
     percent_fat := none, percent_hydration := 0 },
   { timestamp := 1, weight := 100, bone_mass := 0, muscle_mass := 0,
     percent_fat := none, percent_hydration := 0 },
   { timestamp := 1, weight := 150, bone_mass := 0, muscle_mass := 0,
     percent_fat := none, percent_hydration := 0 }]

def c2Out : ProcessOutput :=
  { week_year := "22-2024",
    file_id := { type := 4, manufacturer := 255, product := 1,
                 product_name := "Health Sync", serial_number := 1701,
                 number := 0, time_created := 2 },
    entries := [{ timestamp := 1, weight := 100, bone_mass := 0,
                  muscle_mass := 0, percent_fat := none,
                  percent_hydration := 0 },
                { timestamp := 1, weight := 150, bone_mass := 0,
                  muscle_mass := 0, percent_fat := none,
                  percent_hydration := 0 },
                { timestamp := 2, weight := 50, bone_mass := 0,
                  muscle_mass := 0, percent_fat := none,
                  percent_hydration := 0 }],
    entry_count := 3 }

/-- C2 witness: a batch with a tie at timestamp 1 comes out sorted, and the
two tied records keep their input order (100 kg before 150 kg). -/
theorem c2_witness :
    (FitbitConverter.process_json_data { conversion_count := 0 } c2Data
        "weight-2024-06-01.json").1 = .ok c2Out ∧
    c2Out.entries.Pairwise (fun a b => a.timestamp ≤ b.timestamp) ∧
    c2Out.entries.filter (fun m => decide (m.timestamp = 1))
      = c2Msgs.filter (fun m => decide (m.timestamp = 1)) := by
  have h : (FitbitConverter.process_json_data { conversion_count := 0 } c2Data
      "weight-2024-06-01.json").1 = .ok c2Out := by decide
  refine ⟨h, (c2_sorted_and_stable _ _ _ _ h).1,
    (c2_sorted_and_stable _ _ _ _ h).2 c2Msgs (by decide) 1⟩

/-- C6 counterexample: with input logIds `[100, 50]`, the file-id
`time_created` is 100 (the FIRST record's logId) while the earliest record
of the batch has timestamp 50 — `time_created` is not derived from the
earliest record. -/
def c6Data : List Entry := [sampleEntry 100 110.23, sampleEntry 50 110.23]

theorem c6_counterexample :
    ((FitbitConverter.process_json_data { conversion_count := 0 } c6Data
        "weight-2024-06-01.json").1).map
          (fun o => (o.file_id.time_created, o.entries.map (fun m => m.timestamp)))
      = .ok ((100 : ℚ), [(50 : ℚ), 100]) ∧ (100 : ℚ) ≠ 50 :=
  ⟨by decide, by decide⟩

/-- C6 (amended): the FileDescriptor's `time_created` is the `logId` of the
FIRST record of the input batch, in input order — which coincides with the
earliest record only when the input is already sorted ascending. -/
theorem c6_time_created_first_entry (c : FitbitConverter) (data : List Entry)
    (fn : String) (out : ProcessOutput)
    (h : (FitbitConverter.process_json_data c data fn).1 = .ok out) :
    ∃ first rest q, data = first :: rest ∧
      first.lookup "logId" = some (.num q) ∧
      out.file_id.time_created = q := by
  obtain ⟨first, rest, q, msgs, hdata, hlook, _, htc, _⟩ := process_json_data_ok h
  exact ⟨first, rest, q, hdata, hlook, htc⟩

def c6Out : ProcessOutput :=
  { week_year := "22-2024",
    file_id := { type := 4, manufacturer := 255, product := 1,
                 product_name := "Health Sync", serial_number := 1701,
                 number := 0, time_created := 100 },
    entries := [{ timestamp := 50, weight := 50, bone_mass := 0,
                  muscle_mass := 0, percent_fat := none,
                  percent_hydration := 0 },
                { timestamp := 100, weight := 50, bone_mass := 0,
                  muscle_mass := 0, percent_fat := none,
                  percent_hydration := 0 }],
    entry_count := 2 }

/-- C6 witness: on the `[100, 50]` batch the amended statement instantiates
to `time_created = 100`, the first entry's logId. -/
theorem c6_witness :
    (FitbitConverter.process_json_data { conversion_count := 0 } c6Data
        "weight-2024-06-01.json").1 = .ok c6Out ∧
    c6Out.file_id.time_created = 100 := by
  have h : (FitbitConverter.process_json_data { conversion_count := 0 } c6Data
      "weight-2024-06-01.json").1 = .ok c6Out := by decide
  obtain ⟨first, rest, q, hdata, hlook, htc⟩ :=
    c6_time_created_first_entry _ _ _ _ h
  refine ⟨h, ?_⟩
  injection hdata with h1 h2
  subst h1
  have h100 : (sampleEntry 100 110.23).lookup "logId" = some (.num 100) := by
    decide
  rw [h100] at hlook
  injection hlook with hv
  injection hv with hq
  rw [htc, ← hq]

/-- C9: converting the same batch twice — the second call running on the
converter state left by the first — yields identical results; the
`conversion_count` state never influences the output, so the encoded bytes
(a deterministic function of the result structure) are byte-identical. -/
theorem c9_idempotent_output (c : FitbitConverter) (data : List Entry)
    (fn : String) :
    (FitbitConverter.process_json_data c data fn).1
      = (FitbitConverter.process_json_data
          ((FitbitConverter.process_json_data c data fn).2) data fn).1 := by
  unfold FitbitConverter.process_json_data
  by_cases hv : validate_google_takeout_format data
  · rw [if_pos hv, if_pos hv]
    repeat' split
    all_goals rfl
  · rw [if_neg hv, if_neg hv]

/-- C5: in the per-record conversion, a raw body-fat value of exactly 0
leaves `percent_fat` absent from the message (and from its serialized field
sequence), while any other raw value is rounded to one decimal place and
included. -/
theorem c5_body_fat_normalization (e : Entry) (q : ℚ) (m : WeightScaleMsg)
    (hq : e.lookup "fat" = some (.num q)) (hm : entryToMsg e = .ok m) :
    (q = 0 → m.percent_fat = none ∧ WSFieldName.percent_fat ∉ m.fieldOrder) ∧
    (q ≠ 0 → m.percent_fat = some (round1 q) ∧
      WSFieldName.percent_fat ∈ m.fieldOrder) := by
  unfold entryToMsg at hm
  cases h1 : getNum e "logId" with
  | error err => rw [h1] at hm; exact Except.noConfusion hm
  | ok ts =>
    simp only [h1] at hm
    cases h2 : getNum e "weight" with
    | error err => rw [h2] at hm; exact Except.noConfusion hm
    | ok w =>
      simp only [h2] at hm
      have h3 : getFat e = if q = 0 then .ok none else .ok (some (round1 q)) := by
        unfold getFat
        rw [hq]
        rfl
      by_cases hq0 : q = 0
      · rw [h3, if_pos hq0] at hm
        obtain rfl := Except.ok.inj hm
        refine ⟨fun _ => ⟨rfl, ?_⟩, fun h => absurd hq0 h⟩
        simp [WeightScaleMsg.fieldOrder]
      · rw [h3, if_neg hq0] at hm
        obtain rfl := Except.ok.inj hm
        refine ⟨fun h => absurd h hq0, fun _ => ⟨rfl, ?_⟩⟩
        simp [WeightScaleMsg.fieldOrder]

/-- The IEEE-754 double nearest to 0.05 — the value Python actually holds
for a JSON literal `0.05`; it is strictly greater than 1/20, so it rounds
up to 0.1. -/
def fat005 : ℚ := 3602879701896397 / 72057594037927936

def c5Entry : Entry :=
  [("logId", .num 1), ("weight", .num 110.23), ("fat", .num fat005)]

def c5Msg : WeightScaleMsg :=
  { timestamp := 1, weight := 50, bone_mass := 0, muscle_mass := 0,
    percent_fat := some 0.1, percent_hydration := 0 }

/-- C5 witness: a raw body-fat of (the double nearest) 0.05 is nonzero,
rounds to 0.1, and appears in the message and its field sequence. -/
theorem c5_witness :
    c5Entry.lookup "fat" = some (.num fat005) ∧
    entryToMsg c5Entry = .ok c5Msg ∧
    round1 fat005 = 0.1 ∧
    c5Msg.percent_fat = some (round1 fat005) ∧
    WSFieldName.percent_fat ∈ c5Msg.fieldOrder := by
  have h := (c5_body_fat_normalization c5Entry fat005 c5Msg (by decide)
    (by decide)).2 (by decide)
  exact ⟨by decide, by decide, by decide, h.1, h.2⟩

/-- Entry whose date string has no `/`-separated third part: the uncaught
`IndexError` input of C4. -/
def c4BadDateEntry : Entry :=
  [("logId", .num 1), ("weight", .num 110.23),
   ("date", .str "2024-06-01"), ("time", .str "08:00:00")]

/-- Entry whose date has three `/`-parts but matches neither pattern: the
gracefully skipped input of C4. -/
def c4SkippedEntry : Entry :=
  [("logId", .num 1), ("weight", .num 110.23),
   ("date", .str "13/45/99"), ("time", .str "08:00:00")]

/-- C4 (code bug in the date/time path): a date that fails the patterns but
still has three `/`-separated parts is skipped and conversion continues
(first two conjuncts, the spec's behaviour) — but a date with fewer than
three `/`-parts raises an UNCAUGHT `IndexError` at
`date_str.split('/')[2]`, aborting the whole batch instead of skipping the
record (last two conjuncts). -/
theorem c4_unparsable_date_not_always_skipped :
    convert_date_to_unix_timestamp "13/45/99" "08:00:00" = .ok none ∧
    create_fit_file_weight_entries [c4SkippedEntry, sampleEntry 1 110.23]
      = .ok [{ timestamp := 1717228800000, weight := 50, bone_mass := 0,
               muscle_mass := 0, percent_fat := none,
               percent_hydration := 0 }] ∧
    convert_date_to_unix_timestamp "2024-06-01" "08:00:00"
      = .error .indexError ∧
    create_fit_file_weight_entries [c4BadDateEntry, sampleEntry 1 110.23]
      = .error .indexError :=
  ⟨by decide, by decide, by decide, by decide⟩

def c7Entry : Entry := sampleEntry 1717200000000 110.23

/-- C7 (code bug): for an input named `takeout.json` the week number is not
derivable from the file name, and the code even derives `"22-2024"` from
the first record's date inside `process_json_data` (second conjunct) — yet
`get_output_filename` never consults the records, so the produced file is
named with the fixed fallback instead of `"Weight 22-2024 Fitbit.fit"`. -/
theorem c7_record_date_fallback_unused :
    extract_week_year_from_filename "takeout.json" = none ∧
    process_week_year [c7Entry] "takeout.json" = .ok "22-2024" ∧
    get_output_filename "takeout.json" = "Weight Converted Fitbit.fit" ∧
    (convert_fitbit_to_garmin [("takeout.json", [c7Entry])]).map
        (fun results => results.map Prod.fst)
      = .ok ["Weight Converted Fitbit.fit"] :=
  ⟨by decide, by decide, by decide, by decide⟩

/-- C10: in the date/time-string path, a record whose parsed timestamp is
exactly 0 (1970-01-01 00:00:00 UTC) is dropped exactly like a parse
failure — converting `e :: rest` equals converting `rest` — and
consequently no message with timestamp 0 ever appears in the output. -/
theorem c10_zero_timestamp_dropped :
    (∀ (e : Entry) (rest : List Entry) (ds ts : String),
      getStrLike e "date" = .ok ds → getStrLike e "time" = .ok ts →
      convert_date_to_unix_timestamp ds ts = .ok (some 0) →
      create_fit_file_weight_entries (e :: rest)
        = create_fit_file_weight_entries rest) ∧
    (∀ (data : List Entry) (l : List WeightScaleMsg),
      create_fit_file_weight_entries data = .ok l →
      ∀ m ∈ l, m.timestamp ≠ 0) := by
  constructor
  · intro e rest ds ts hd ht hc
    conv_lhs => unfold create_fit_file_weight_entries
    simp [hd, ht, hc]
  · intro data
    induction data with
    | nil =>
      intro l h m hm
      rw [show create_fit_file_weight_entries [] = .ok [] from rfl] at h
      obtain rfl := Except.ok.inj h
      exact absurd hm (List.not_mem_nil m)
    | cons e rest ih =>
      intro l h m hm
      unfold create_fit_file_weight_entries at h
      cases hd : getStrLike e "date" with
      | error err => simp only [hd] at h; exact Except.noConfusion h
      | ok ds =>
        simp only [hd] at h
        cases ht : getStrLike e "time" with
        | error err => simp only [ht] at h; exact Except.noConfusion h
        | ok ts =>
          simp only [ht] at h
          cases hc : convert_date_to_unix_timestamp ds ts with
          | error err => simp only [hc] at h; exact Except.noConfusion h
          | ok ot =>
            cases ot with
            | none =>
              simp only [hc] at h
              exact ih l h m hm
            | some t =>
              simp only [hc] at h
              by_cases ht0 : t = 0
              · rw [if_pos ht0] at h
                exact ih l h m hm
              · rw [if_neg ht0] at h
                cases hw : getNum e "weight" with
                | error err => simp only [hw] at h; exact Except.noConfusion h
                | ok w =>
                  simp only [hw] at h
                  cases hf : getFat e with
                  | error err => simp only [hf] at h; exact Except.noConfusion h
                  | ok fat =>
                    simp only [hf] at h
                    cases hr : create_fit_file_weight_entries rest with
                    | error err => simp only [hr] at h; exact Except.noConfusion h
                    | ok ms =>
                      simp only [hr] at h
                      obtain rfl := Except.ok.inj h
                      rcases List.mem_cons.mp hm with rfl | hm2
                      · intro habs
                        apply ht0
                        have hcast : (t : ℚ) = 0 := habs
                        exact_mod_cast hcast
                      · exact ih ms hr m hm2

def c10ZeroEntry : Entry :=
  [("logId", .num 0), ("weight", .num 110.23),
   ("date", .str "1/1/70"), ("time", .str "00:00:00")]

/-- C10 witness: the entry dated 1970-01-01 00:00:00 parses to exactly 0
and is silently dropped — converting it alongside another record yields the
same output as converting the other record alone. -/
theorem c10_witness :
    getStrLike c10ZeroEntry "date" = .ok "1/1/70" ∧
    getStrLike c10ZeroEntry "time" = .ok "00:00:00" ∧
    convert_date_to_unix_timestamp "1/1/70" "00:00:00" = .ok (some 0) ∧
    create_fit_file_weight_entries [c10ZeroEntry, sampleEntry 1 110.23]
      = create_fit_file_weight_entries [sampleEntry 1 110.23] :=
  ⟨by decide, by decide, by decide,
    c10_zero_timestamp_dropped.1 c10ZeroEntry [sampleEntry 1 110.23] "1/1/70"
      "00:00:00" (by decide) (by decide) (by decide)⟩
